import Mathlib

/-!
Verification of `ctapipe/reco/hillas_mono_reconstructor.py` (class
`HillasIntersection` and the module-level helper `get_shower_height`).

Numbers are modelled by rationals.  The numeric-library calls the module
makes (`np.cos`, `np.sin`, `np.sqrt`, and the astropy rad→deg unit
conversion) are abstracted into a bundle `NumPrims` of function
parameters; the only facts assumed of them are that the square root of
zero is zero and that converting a zero angle yields zero, both true of
the concrete library functions.  The atmosphere thickness profile and the
coordinate-frame transforms are external collaborators of the module and
are likewise taken as abstract function parameters.

IEEE special values matter in `reconstruct_xmax`, whose clipping step
tests `mean_height > 100000 or np.isnan(mean_height)` and whose
shower-height input is a quotient that can overflow to infinity or NaN
when the displacement is zero.  A small value type `FVal`
(finite / +inf / -inf / NaN) with the relevant numpy arithmetic models
that data path; everywhere else the values stay plain rationals, exactly
as the Python floats do on the claims at issue.
-/

namespace HillasMono

/-- Abstracted numeric primitives used by the module: `np.cos`, `np.sin`,
`np.sqrt` and the astropy `rad → deg` conversion, together with the two
evaluation facts about them that the development needs. -/
structure NumPrims where
  cos : ℚ → ℚ
  sin : ℚ → ℚ
  sqrt : ℚ → ℚ
  radToDeg : ℚ → ℚ
  sqrt_zero : sqrt 0 = 0
  radToDeg_zero : radToDeg 0 = 0

/-- Per-telescope Hillas parameter record, fields holding the stripped
numeric values the Python code reads (`psi` in radians, centroid in
radians of the nominal frame, `width`/`length` in the centroid unit,
`size` a count). -/
structure HillasParameters where
  psi : ℚ
  cen_x : ℚ
  cen_y : ℚ
  width : ℚ
  length : ℚ
  size : ℚ
deriving DecidableEq

/-- The `weighting` keyword argument of the reconstructors (source
default: Konrad). -/
inductive WeightScheme where
  | Konrad : WeightScheme
  | HESS : WeightScheme
deriving DecidableEq

/-- Array pointing direction (`array_direction`): altitude and azimuth in
degrees. -/
structure ArrayDirection where
  alt : ℚ
  az : ℚ
deriving DecidableEq

/-- External coordinate-frame transform capability used by `predict`:
nominal `(x, y)` to horizon `(alt, az)`, and tilted-ground `(x, y)` to
ground `(x, y)`, each parameterized by the array pointing direction. -/
structure FrameTransforms where
  nominalToHorizon : ℚ → ℚ → ArrayDirection → ℚ × ℚ
  tiltedToGround : ℚ → ℚ → ArrayDirection → ℚ × ℚ

/-- Float value with the IEEE special values the xmax data path can
produce: a finite rational, positive or negative infinity, or NaN. -/
inductive FVal where
  | fin : ℚ → FVal
  | posInf : FVal
  | negInf : FVal
  | nan : FVal
deriving DecidableEq

/-- Multiplication of a float value by a finite scalar, numpy semantics:
infinity times zero is NaN, infinity times a signed scalar keeps or flips
the sign, NaN propagates. -/
def FVal.mulQ : FVal → ℚ → FVal
  | .fin x, c => .fin (x * c)
  | .posInf, c => if 0 < c then .posInf else if c < 0 then .negInf else .nan
  | .negInf, c => if 0 < c then .negInf else if c < 0 then .posInf else .nan
  | .nan, _ => .nan

/-- Addition of a finite scalar to a float value: infinities and NaN
absorb the addition. -/
def FVal.addQ : FVal → ℚ → FVal
  | .fin x, c => .fin (x + c)
  | v, _ => v

/-- Comparison `v > c` against a finite scalar, numpy semantics: +inf
compares greater, -inf and NaN do not. -/
def FVal.gtQ : FVal → ℚ → Bool
  | .fin x, c => decide (c < x)
  | .posInf, _ => true
  | .negInf, _ => false
  | .nan, _ => false

/-- The `np.isnan` test. -/
def FVal.isNaN : FVal → Bool
  | .nan => true
  | _ => false

/-- Division of two finite scalars with numpy semantics: a zero divisor
produces a signed infinity, or NaN when the dividend is also zero. -/
def fdivQ (a b : ℚ) : FVal :=
  if b = 0 then
    if 0 < a then .posInf else if a < 0 then .negInf else .nan
  else
    .fin (a / b)

/-- Division of a float value by a finite scalar, numpy semantics:
infinities keep or flip sign with the divisor's sign (a zero divisor
counts as +0), NaN propagates, finite values follow `fdivQ`. -/
def FVal.divQ : FVal → ℚ → FVal
  | .fin x, c => fdivQ x c
  | .posInf, c => if c < 0 then .negInf else .posInf
  | .negInf, c => if c < 0 then .posInf else .negInf
  | .nan, _ => .nan

/-- The output container `ReconstructedShowerContainer` with the fields
`predict` fills in.  `h_max`, `h_max_uncert` and `goodness_of_fit` are
float-valued so that the `np.nan` assignments can be stated. -/
structure ReconstructedShowerContainer where
  alt : ℚ
  az : ℚ
  core_x : ℚ
  core_y : ℚ
  core_uncert : ℚ
  tel_ids : List Nat
  average_size : ℚ
  is_valid : Bool
  alt_uncert : ℚ
  az_uncert : ℚ
  h_max : FVal
  h_max_uncert : FVal
  goodness_of_fit : FVal

/-- Embedding of `HillasIntersection.reconstruct_nominal`.  The active
body (the pairwise-intersection code is commented out in the source)
reads the single supplied Hillas record and returns the displacement
estimate with hard-coded zero variances, passed through `np.sqrt`.  The
`weighting` argument is never read. -/
def reconstruct_nominal (P : NumPrims) (hillas_parameters : HillasParameters)
    (eps : ℚ) (weighting : WeightScheme) : ℚ × ℚ × ℚ × ℚ :=
  let _w := weighting
  let x_pos := hillas_parameters.cen_x -
    eps * (1 - hillas_parameters.width / hillas_parameters.length) *
      P.cos hillas_parameters.psi
  let y_pos := hillas_parameters.cen_y -
    eps * (1 - hillas_parameters.width / hillas_parameters.length) *
      P.sin hillas_parameters.psi
  let var_x : ℚ := 0
  let var_y : ℚ := 0
  (x_pos, y_pos, P.sqrt var_x, P.sqrt var_y)

/-- Embedding of `HillasIntersection.reconstruct_tilted`.  The active
body is textually the same displacement estimate as
`reconstruct_nominal`; the telescope ground positions `tel_x`, `tel_y`
and the `weighting` argument are never read. -/
def reconstruct_tilted (P : NumPrims) (hillas_parameters : HillasParameters)
    (eps : ℚ) (tel_x tel_y : ℚ) (weighting : WeightScheme) : ℚ × ℚ × ℚ × ℚ :=
  let _tx := tel_x
  let _ty := tel_y
  let _w := weighting
  let x_pos := hillas_parameters.cen_x -
    eps * (1 - hillas_parameters.width / hillas_parameters.length) *
      P.cos hillas_parameters.psi
  let y_pos := hillas_parameters.cen_y -
    eps * (1 - hillas_parameters.width / hillas_parameters.length) *
      P.sin hillas_parameters.psi
  let var_x : ℚ := 0
  let var_y : ℚ := 0
  (x_pos, y_pos, P.sqrt var_x, P.sqrt var_y)

/-- Embedding of the module-level `get_shower_height`: displacement of
the image centroid from the source position, impact distance of the
telescope from the core, and their quotient (numpy division, so a zero
displacement yields infinity or NaN). -/
def get_shower_height (P : NumPrims)
    (source_x source_y cog_x cog_y core_x core_y tel_pos_x tel_pos_y : ℚ) :
    FVal :=
  let disp := P.sqrt ((cog_x - source_x) ^ 2 + (cog_y - source_y) ^ 2)
  let impact := P.sqrt ((tel_pos_x - core_x) ^ 2 + (tel_pos_y - core_y) ^ 2)
  fdivQ impact disp

/-- Embedding of `HillasIntersection.reconstruct_xmax`.
`thickness_profile` is the external atmosphere lookup (it receives the
height in km, i.e. the metre value scaled by 1/1000, matching
`.to(u.km)`).  The source binds `amp = hillas_parameters.size` but never
uses it (the brightness-weighted averaging is commented out); the dead
binding is kept as `_amp`. -/
def reconstruct_xmax (P : NumPrims) (thickness_profile : FVal → FVal)
    (source_x source_y core_x core_y : ℚ)
    (hillas_parameters : HillasParameters) (tel_x tel_y zen : ℚ) : FVal :=
  let cog_x := hillas_parameters.cen_x
  let cog_y := hillas_parameters.cen_y
  let _amp := hillas_parameters.size
  let tx := tel_x
  let ty := tel_y
  let height := get_shower_height P source_x source_y cog_x cog_y
    core_x core_y tx ty
  let mean_height := height
  let mean_height := mean_height.mulQ (P.cos zen)
  let mean_height := mean_height.addQ 2100
  let mean_height :=
    if mean_height.gtQ 100000 || mean_height.isNaN then FVal.fin 100000
    else mean_height
  let x_max := thickness_profile (mean_height.mulQ (1 / 1000))
  x_max.divQ (P.cos zen)

/-- Embedding of `HillasIntersection.predict`: nominal and tilted
reconstruction, frame transforms, xmax with zenith `90° - alt`, and
assembly of the output container exactly as the source does. -/
def predict (P : NumPrims) (thickness_profile : FVal → FVal)
    (T : FrameTransforms) (hillas_parameters : HillasParameters)
    (eps : ℚ) (tel_x tel_y : ℚ) (array_direction : ArrayDirection) :
    ReconstructedShowerContainer :=
  let s := reconstruct_nominal P hillas_parameters eps WeightScheme.Konrad
  let c := reconstruct_tilted P hillas_parameters eps tel_x tel_y
    WeightScheme.Konrad
  let src_x := s.1
  let src_y := s.2.1
  let err_x := s.2.2.1
  let err_y := s.2.2.2
  let core_x := c.1
  let core_y := c.2.1
  let core_err_x := c.2.2.1
  let core_err_y := c.2.2.2
  let horiz := T.nominalToHorizon src_x src_y array_direction
  let grd := T.tiltedToGround core_x core_y array_direction
  let zen := 90 - array_direction.alt
  let x_max := reconstruct_xmax P thickness_profile src_x src_y
    core_x core_y hillas_parameters tel_x tel_y zen
  let core_uncert := P.sqrt (core_err_x * core_err_x + core_err_y * core_err_y)
  let src_error := P.sqrt (err_x * err_x + err_y * err_y)
  { alt := horiz.1
    az := horiz.2
    core_x := grd.1
    core_y := grd.2
    core_uncert := core_uncert
    tel_ids := [1]
    average_size := hillas_parameters.size
    is_valid := true
    alt_uncert := P.radToDeg src_error
    az_uncert := P.radToDeg src_error
    h_max := x_max
    h_max_uncert := FVal.nan
    goodness_of_fit := FVal.nan }

/-- The xmax post-processing chain as the specification words it: scale
the height by `cos(zenith)`, add the 2100 m site altitude, saturate any
value exceeding 100000 m or any NaN at exactly 100000 m, look the
clipped height (in km) up in the thickness profile, and divide the
resulting depth by `cos(zenith)`. -/
def xmaxPostClaim (P : NumPrims) (thickness_profile : FVal → FVal)
    (height : FVal) (zen : ℚ) : FVal :=
  let aboveGround := height.mulQ (P.cos zen)
  let withSite := aboveGround.addQ 2100
  let clipped :=
    if withSite.gtQ 100000 || withSite.isNaN then FVal.fin 100000
    else withSite
  (thickness_profile (clipped.mulQ (1 / 1000))).divQ (P.cos zen)

/-- Concrete numeric-primitive instance used for closed evaluations. -/
def testPrims : NumPrims where
  cos := fun _ => 1
  sin := fun _ => 0
  sqrt := fun _ => 0
  radToDeg := fun q => q
  sqrt_zero := rfl
  radToDeg_zero := rfl

/-- Concrete Hillas record used for closed evaluations. -/
def testHillas : HillasParameters where
  psi := 0
  cen_x := 1
  cen_y := 2
  width := 1
  length := 2
  size := 100

/-- Concrete frame-transform instance used for closed evaluations. -/
def testTransforms : FrameTransforms where
  nominalToHorizon := fun x y _ => (x, y)
  tiltedToGround := fun x y _ => (x, y)

/-- Concrete pointing direction used for closed evaluations. -/
def testDirection : ArrayDirection where
  alt := 70
  az := 0

/-- C1: the claimed pairwise weighted-mean/variance algorithm is not what
the code runs.  Evaluating the active body of `reconstruct_nominal` on a
concrete record shows it returns the single-telescope displacement
estimate `(1/2, 2)` with both uncertainties hard-coded to zero — no
pairwise crossing points, weights, mean or variance are ever computed
(that implementation is commented out in the source). -/
theorem reconstruct_nominal_is_disp_only :
    reconstruct_nominal testPrims testHillas 1 WeightScheme.Konrad =
      (1 / 2, 2, 0, 0) := by
  norm_num [reconstruct_nominal, testPrims, testHillas]

/-- C2: for the single supplied telescope record (and indeed on every
input the active code accepts), `reconstruct_nominal` returns the
displacement-based position
`x = cen_x - eps·(1 - width/length)·cos(psi)`,
`y = cen_y - eps·(1 - width/length)·sin(psi)` with zero per-axis
uncertainty. -/
theorem reconstruct_nominal_disp_formula (P : NumPrims)
    (hp : HillasParameters) (eps : ℚ) (w : WeightScheme) :
    reconstruct_nominal P hp eps w =
      (hp.cen_x - eps * (1 - hp.width / hp.length) * P.cos hp.psi,
       hp.cen_y - eps * (1 - hp.width / hp.length) * P.sin hp.psi,
       0, 0) := by
  simp [reconstruct_nominal, P.sqrt_zero]

/-- C3: `reconstruct_xmax` is exactly the claimed post-processing chain
applied to the geometric shower height: multiply by `cos(zenith)`, add
the 2100 m site offset, saturate values exceeding 100000 m or NaN at
100000 m, convert the clipped height to depth through the thickness
profile (in km), and divide the depth by `cos(zenith)`. -/
theorem reconstruct_xmax_post_chain (P : NumPrims)
    (thickness_profile : FVal → FVal) (sx sy cx cy : ℚ)
    (hp : HillasParameters) (tx ty zen : ℚ) :
    reconstruct_xmax P thickness_profile sx sy cx cy hp tx ty zen =
      xmaxPostClaim P thickness_profile
        (get_shower_height P sx sy hp.cen_x hp.cen_y cx cy tx ty) zen := by
  rfl

/-- C4: the image brightness never enters the shower-maximum estimate:
`reconstruct_xmax` returns the same value after replacing the record's
`size` by anything, so the height used downstream is not a
brightness-weighted mean (the source reads `size` into a dead variable
and the weighted averaging is commented out), and only the single
supplied record is ever evaluated. -/
theorem reconstruct_xmax_ignores_size (P : NumPrims)
    (thickness_profile : FVal → FVal) (sx sy cx cy : ℚ)
    (hp : HillasParameters) (tx ty zen s : ℚ) :
    reconstruct_xmax P thickness_profile sx sy cx cy
        { hp with size := s } tx ty zen =
      reconstruct_xmax P thickness_profile sx sy cx cy hp tx ty zen := by
  rfl

/-- C5: `predict` feeds the shower-maximum estimator the zenith angle
`90 - alt`, sets `alt_uncert` and `az_uncert` to the (deg-converted)
radial combination `sqrt(err_x² + err_y²)` of the nominal per-axis
uncertainties, sets `core_uncert = sqrt(core_err_x² + core_err_y²)`,
unconditionally marks the result valid, and leaves `goodness_of_fit`
and `h_max_uncert` as NaN. -/
theorem predict_assembly (P : NumPrims) (thickness_profile : FVal → FVal)
    (T : FrameTransforms) (hp : HillasParameters) (eps tx ty : ℚ)
    (ad : ArrayDirection) :
    (predict P thickness_profile T hp eps tx ty ad).h_max =
        reconstruct_xmax P thickness_profile
          (reconstruct_nominal P hp eps WeightScheme.Konrad).1
          (reconstruct_nominal P hp eps WeightScheme.Konrad).2.1
          (reconstruct_tilted P hp eps tx ty WeightScheme.Konrad).1
          (reconstruct_tilted P hp eps tx ty WeightScheme.Konrad).2.1
          hp tx ty (90 - ad.alt) ∧
      (predict P thickness_profile T hp eps tx ty ad).alt_uncert =
        P.radToDeg (P.sqrt
          ((reconstruct_nominal P hp eps WeightScheme.Konrad).2.2.1 *
            (reconstruct_nominal P hp eps WeightScheme.Konrad).2.2.1 +
           (reconstruct_nominal P hp eps WeightScheme.Konrad).2.2.2 *
            (reconstruct_nominal P hp eps WeightScheme.Konrad).2.2.2)) ∧
      (predict P thickness_profile T hp eps tx ty ad).az_uncert =
        (predict P thickness_profile T hp eps tx ty ad).alt_uncert ∧
      (predict P thickness_profile T hp eps tx ty ad).core_uncert =
        P.sqrt
          ((reconstruct_tilted P hp eps tx ty WeightScheme.Konrad).2.2.1 *
            (reconstruct_tilted P hp eps tx ty WeightScheme.Konrad).2.2.1 +
           (reconstruct_tilted P hp eps tx ty WeightScheme.Konrad).2.2.2 *
            (reconstruct_tilted P hp eps tx ty WeightScheme.Konrad).2.2.2) ∧
      (predict P thickness_profile T hp eps tx ty ad).is_valid = true ∧
      (predict P thickness_profile T hp eps tx ty ad).goodness_of_fit =
        FVal.nan ∧
      (predict P thickness_profile T hp eps tx ty ad).h_max_uncert =
        FVal.nan := by
  exact ⟨rfl, rfl, rfl, rfl, rfl, rfl, rfl⟩

/-- C6: the code never surfaces a degenerate-geometry failure: `predict`
marks every result valid, on every input whatsoever (the `is_valid`
field is assigned the constant `True` and no degeneracy check exists in
the active code). -/
theorem predict_never_invalid (P : NumPrims)
    (thickness_profile : FVal → FVal) (T : FrameTransforms)
    (hp : HillasParameters) (eps tx ty : ℚ) (ad : ArrayDirection) :
    (predict P thickness_profile T hp eps tx ty ad).is_valid = true := by
  rfl

/-- C7: on a single-telescope event `predict` returns (it is a total
function), the result is marked valid, its direction is the frame
transform of the displacement-based fallback position, and both per-axis
direction uncertainties are reported as zero. -/
theorem predict_single_tel (P : NumPrims) (thickness_profile : FVal → FVal)
    (T : FrameTransforms) (hp : HillasParameters) (eps tx ty : ℚ)
    (ad : ArrayDirection) :
    (predict P thickness_profile T hp eps tx ty ad).is_valid = true ∧
      ((predict P thickness_profile T hp eps tx ty ad).alt,
       (predict P thickness_profile T hp eps tx ty ad).az) =
        T.nominalToHorizon
          (hp.cen_x - eps * (1 - hp.width / hp.length) * P.cos hp.psi)
          (hp.cen_y - eps * (1 - hp.width / hp.length) * P.sin hp.psi) ad ∧
      (predict P thickness_profile T hp eps tx ty ad).alt_uncert = 0 ∧
      (predict P thickness_profile T hp eps tx ty ad).az_uncert = 0 := by
  refine ⟨rfl, rfl, ?_, ?_⟩ <;>
    simp [predict, reconstruct_nominal, P.sqrt_zero, P.radToDeg_zero]

/-- C8: `predict` is deterministic: with the same fixed configuration
(numeric primitives, thickness profile, frame transforms) and equal
inputs, the two results are identical in every field. -/
theorem predict_deterministic (P : NumPrims)
    (thickness_profile : FVal → FVal) (T : FrameTransforms)
    (hp hp2 : HillasParameters) (eps eps2 tx tx2 ty ty2 : ℚ)
    (ad ad2 : ArrayDirection) (h1 : hp = hp2) (h2 : eps = eps2)
    (h3 : tx = tx2) (h4 : ty = ty2) (h5 : ad = ad2) :
    predict P thickness_profile T hp eps tx ty ad =
      predict P thickness_profile T hp2 eps2 tx2 ty2 ad2 := by
  subst h1; subst h2; subst h3; subst h4; subst h5; rfl

/-- Witness for C8 at a concrete configuration and input. -/
theorem predict_deterministic_witness :
    testHillas = testHillas ∧
      predict testPrims (fun v => v) testTransforms testHillas 1 0 0
          testDirection =
        predict testPrims (fun v => v) testTransforms testHillas 1 0 0
          testDirection :=
  ⟨rfl,
    predict_deterministic testPrims (fun v => v) testTransforms
      testHillas testHillas 1 1 0 0 0 0 testDirection testDirection
      rfl rfl rfl rfl rfl⟩

/-- C9: `reconstruct_tilted` returns exactly the tuple
`reconstruct_nominal` returns on the same record and `eps`: the
telescope ground positions and the weighting argument never influence
the output. -/
theorem reconstruct_tilted_eq_nominal (P : NumPrims)
    (hp : HillasParameters) (eps tx ty : ℚ) (w w2 : WeightScheme) :
    reconstruct_tilted P hp eps tx ty w =
      reconstruct_nominal P hp eps w2 := by
  rfl

/-- C10: on every input, the container returned by `predict` has
`tel_ids = [1]`, `average_size` equal to the supplied record's `size`,
and all position uncertainties exactly zero. -/
theorem predict_constant_fields (P : NumPrims)
    (thickness_profile : FVal → FVal) (T : FrameTransforms)
    (hp : HillasParameters) (eps tx ty : ℚ) (ad : ArrayDirection) :
    (predict P thickness_profile T hp eps tx ty ad).tel_ids = [1] ∧
      (predict P thickness_profile T hp eps tx ty ad).average_size =
        hp.size ∧
      (predict P thickness_profile T hp eps tx ty ad).alt_uncert = 0 ∧
      (predict P thickness_profile T hp eps tx ty ad).az_uncert = 0 ∧
      (predict P thickness_profile T hp eps tx ty ad).core_uncert = 0 := by
  refine ⟨rfl, rfl, ?_, ?_, ?_⟩ <;>
    simp [predict, reconstruct_nominal, reconstruct_tilted, P.sqrt_zero,
      P.radToDeg_zero]

end HillasMono
